import Mathlib

/-!
Verification of the CAPM calculator (`capm_explained.py` and `capm.py`).

The repository consists of two Streamlit apps sharing the same core: a
one-line CAPM evaluator `calculate_capm`, an SML curve built from
`np.linspace(0, 3, 100)`, and preset callbacks that overwrite the three
slider values in the session state.  Python float arithmetic on these
small decimal inputs is modelled exactly over `ℚ`, so every definition
is executable and concrete evaluations are decidable.
-/

/-- The three slider values kept in `st.session_state` under the keys
`rf_slider`, `rm_slider` and `beta_slider`.  Both apps use the same keys. -/
structure SessionState where
  rf_slider : ℚ
  rm_slider : ℚ
  beta_slider : ℚ

namespace CapmExplained

/-- `calculate_capm` from `capm_explained.py` (lines 43-45):
`expected_return = rf + beta * (rm - rf)`. -/
def calculate_capm (rf rm beta : ℚ) : ℚ :=
  rf + beta * (rm - rf)

/-- `reset_parameters` from `capm_explained.py` (lines 10-13): sets the
three session-state sliders to `0.02`, `0.08`, `1.0`. -/
def reset_parameters (s : SessionState) : SessionState :=
  { s with rf_slider := 0.02, rm_slider := 0.08, beta_slider := 1.0 }

/-- `set_lab1_parameters` from `capm_explained.py` (lines 15-18). -/
def set_lab1_parameters (s : SessionState) : SessionState :=
  { s with rf_slider := 0.02, rm_slider := 0.08, beta_slider := 1.5 }

/-- `set_lab2_parameters` from `capm_explained.py` (lines 20-23). -/
def set_lab2_parameters (s : SessionState) : SessionState :=
  { s with rf_slider := 0.03, rm_slider := 0.12, beta_slider := 2.0 }

/-- `set_lab3_parameters` from `capm_explained.py` (lines 25-28). -/
def set_lab3_parameters (s : SessionState) : SessionState :=
  { s with rf_slider := 0.01, rm_slider := 0.05, beta_slider := 0.5 }

/-- `set_lab4_parameters` from `capm_explained.py` (lines 30-33). -/
def set_lab4_parameters (s : SessionState) : SessionState :=
  { s with rf_slider := 0.04, rm_slider := 0.10, beta_slider := 0.8 }

/-- `set_lab5_parameters` from `capm_explained.py` (lines 35-38). -/
def set_lab5_parameters (s : SessionState) : SessionState :=
  { s with rf_slider := 0.02, rm_slider := 0.06, beta_slider := 1.2 }

/-- `np.linspace(start, stop, num)` with the default `endpoint=True`:
`num` evenly spaced samples `start + (stop - start) * i / (num - 1)`
for `i = 0, ..., num - 1`. -/
def linspace (start stop : ℚ) (num : ℕ) : List ℚ :=
  (List.range num).map (fun (i : ℕ) => start + (stop - start) * (i : ℚ) / ((num : ℚ) - 1))

/-- `betas = np.linspace(0, 3, 100)` from `capm_explained.py` (line 127). -/
def betas : List ℚ :=
  linspace 0 3 100

/-- `returns = rf + betas * (rm - rf)` from `capm_explained.py` (line 128):
numpy broadcasting applies the affine expression elementwise. -/
def returns (rf rm : ℚ) : List ℚ :=
  betas.map (fun b => rf + b * (rm - rf))

/-- The affine function of beta that the broadcast expression
`rf + betas * (rm - rf)` (line 128) applies to each sampled beta; the
plotted SML is its graph. -/
def sml_line (rf rm b : ℚ) : ℚ :=
  rf + b * (rm - rf)

end CapmExplained

namespace Capm

/-- `calculate_capm` from `capm.py` (lines 44-46):
`expected_return = rf + beta * (rm - rf)`. -/
def calculate_capm (rf rm beta : ℚ) : ℚ :=
  rf + beta * (rm - rf)

/-- `reset_parameters` from `capm.py` (lines 25-28): sets the three
session-state sliders to `0.02`, `0.08`, `1.0`. -/
def reset_parameters (s : SessionState) : SessionState :=
  { s with rf_slider := 0.02, rm_slider := 0.08, beta_slider := 1.0 }

/-- `betas = np.linspace(0, 3, 100)` from `capm.py` (line 75). -/
def betas : List ℚ :=
  CapmExplained.linspace 0 3 100

/-- `returns = rf + betas * (rm - rf)` from `capm.py` (line 76). -/
def returns (rf rm : ℚ) : List ℚ :=
  betas.map (fun b => rf + b * (rm - rf))

end Capm

/-- Claim C1: for every `rf`, `rm` and `beta` (no range restriction, negative
values included), `calculate_capm` — in both files — returns exactly
`rf + beta * (rm - rf)`. -/
theorem calculate_capm_formula (rf rm beta : ℚ) :
    CapmExplained.calculate_capm rf rm beta = rf + beta * (rm - rf) ∧
    Capm.calculate_capm rf rm beta = rf + beta * (rm - rf) :=
  ⟨rfl, rfl⟩

/-- Claim C2: the SML curve data consists of exactly 100 beta samples, the
first being 0 and the last being 3, strictly ascending and evenly spaced
(each successive difference equals the constant step `3 / 99`), and the
`returns` array pairs each sampled beta with `calculate_capm rf rm beta`. -/
theorem sml_curve_points (rf rm : ℚ) :
    CapmExplained.betas.length = 100 ∧
    CapmExplained.betas.head? = some 0 ∧
    CapmExplained.betas.getLast? = some 3 ∧
    CapmExplained.betas.Pairwise (· < ·) ∧
    List.Chain' (fun a b => b - a = 3 / 99) CapmExplained.betas ∧
    CapmExplained.returns rf rm
      = CapmExplained.betas.map (fun b => CapmExplained.calculate_capm rf rm b) := by
  refine ⟨?_, ?_, ?_, ?_, ?_, rfl⟩
  · unfold CapmExplained.betas CapmExplained.linspace
    rw [List.length_map, List.length_range]
  · unfold CapmExplained.betas CapmExplained.linspace
    rw [List.head?_map, List.head?_range]
    norm_num
  · unfold CapmExplained.betas CapmExplained.linspace
    rw [List.getLast?_map, List.getLast?_range]
    norm_num
  · unfold CapmExplained.betas CapmExplained.linspace
    rw [List.pairwise_map]
    refine (List.pairwise_lt_range 100).imp ?_
    intro i j hij
    have hc : (i : ℚ) < (j : ℚ) := by exact_mod_cast hij
    have h99 : (0 : ℚ) < ((100 : ℕ) : ℚ) - 1 := by norm_num
    have hm : (3 - 0 : ℚ) * i < (3 - 0 : ℚ) * j := by nlinarith
    exact add_lt_add_left (div_lt_div_of_pos_right hm h99) 0
  · unfold CapmExplained.betas CapmExplained.linspace
    rw [List.chain'_map]
    rw [show (100 : ℕ) = Nat.succ 99 from rfl, List.chain'_range_succ]
    intro m hm
    push_cast
    ring

/-- Claim C3: for fixed `rf` and `rm`, the evaluator is strictly increasing
in beta when `rm > rf`, strictly decreasing when `rm < rf`, and constantly
equal to `rf` when `rm = rf`. -/
theorem calculate_capm_monotone (rf rm : ℚ) :
    (rf < rm → StrictMono (fun beta => CapmExplained.calculate_capm rf rm beta)) ∧
    (rm < rf → StrictAnti (fun beta => CapmExplained.calculate_capm rf rm beta)) ∧
    (rm = rf → ∀ beta, CapmExplained.calculate_capm rf rm beta = rf) := by
  unfold CapmExplained.calculate_capm
  refine ⟨?_, ?_, ?_⟩
  · intro h b1 b2 hb
    have hd : 0 < rm - rf := by linarith
    simp only
    nlinarith
  · intro h b1 b2 hb
    have hd : rm - rf < 0 := by linarith
    simp only
    nlinarith
  · intro h beta
    rw [h]
    ring

/-- Witness for claim C3: the monotonicity trichotomy applied at concrete
inputs, one instance per branch. -/
theorem calculate_capm_monotone_witness :
    CapmExplained.calculate_capm 0 1 1 < CapmExplained.calculate_capm 0 1 2 ∧
    CapmExplained.calculate_capm 1 0 2 < CapmExplained.calculate_capm 1 0 1 ∧
    CapmExplained.calculate_capm 2 2 5 = 2 :=
  ⟨(calculate_capm_monotone 0 1).1 (by decide) (by decide),
   (calculate_capm_monotone 1 0).2.1 (by decide) (by decide),
   (calculate_capm_monotone 2 2).2.2 rfl 5⟩

/-- Claim C6: each of the six preset triggers overwrites all three session
values with its fixed constant tuple, regardless of the prior state; in
particular Lab 3 sets exactly `(0.01, 0.05, 0.5)`.  The `capm.py` variant
of the reset trigger behaves identically. -/
theorem preset_triggers (s t : SessionState) :
    CapmExplained.reset_parameters s = ⟨0.02, 0.08, 1.0⟩ ∧
    CapmExplained.set_lab1_parameters s = ⟨0.02, 0.08, 1.5⟩ ∧
    CapmExplained.set_lab2_parameters s = ⟨0.03, 0.12, 2.0⟩ ∧
    CapmExplained.set_lab3_parameters s = ⟨0.01, 0.05, 0.5⟩ ∧
    CapmExplained.set_lab4_parameters s = ⟨0.04, 0.10, 0.8⟩ ∧
    CapmExplained.set_lab5_parameters s = ⟨0.02, 0.06, 1.2⟩ ∧
    Capm.reset_parameters t = ⟨0.02, 0.08, 1.0⟩ :=
  ⟨rfl, rfl, rfl, rfl, rfl, rfl, rfl⟩

/-- Claim C8: the evaluator is total and deterministic: every input triple
(negative and large-magnitude values included) yields a result, and two
calls with identical input triples yield identical outputs, in both files. -/
theorem calculate_capm_total_deterministic (p q : ℚ × ℚ × ℚ) (h : p = q) :
    (∃ y : ℚ, CapmExplained.calculate_capm p.1 p.2.1 p.2.2 = y) ∧
    CapmExplained.calculate_capm p.1 p.2.1 p.2.2
      = CapmExplained.calculate_capm q.1 q.2.1 q.2.2 ∧
    (∃ y : ℚ, Capm.calculate_capm p.1 p.2.1 p.2.2 = y) ∧
    Capm.calculate_capm p.1 p.2.1 p.2.2 = Capm.calculate_capm q.1 q.2.1 q.2.2 := by
  subst h
  exact ⟨⟨_, rfl⟩, rfl, ⟨_, rfl⟩, rfl⟩

/-- Witness for claim C8: totality and determinism at a concrete triple with
negative and large-magnitude components. -/
theorem calculate_capm_total_deterministic_witness :
    (∃ y : ℚ, CapmExplained.calculate_capm (-1000000) 0 (-3) = y) ∧
    CapmExplained.calculate_capm (-1000000) 0 (-3)
      = CapmExplained.calculate_capm (-1000000) 0 (-3) ∧
    (∃ y : ℚ, Capm.calculate_capm (-1000000) 0 (-3) = y) ∧
    Capm.calculate_capm (-1000000) 0 (-3) = Capm.calculate_capm (-1000000) 0 (-3) :=
  calculate_capm_total_deterministic (-1000000, 0, -3) (-1000000, 0, -3) rfl

/-- Claim C4: at beta zero the expected return reduces to the risk-free
rate: `calculate_capm rf rm 0 = rf`. -/
theorem calculate_capm_beta_zero (rf rm : ℚ) :
    CapmExplained.calculate_capm rf rm 0 = rf := by
  unfold CapmExplained.calculate_capm
  ring

/-- Claim C5: at beta one the expected return reduces to the expected
market return: `calculate_capm rf rm 1 = rm`. -/
theorem calculate_capm_beta_one (rf rm : ℚ) :
    CapmExplained.calculate_capm rf rm 1 = rm := by
  unfold CapmExplained.calculate_capm
  ring

/-- Claim C7: at `rf = 0.02`, `rm = 0.08`, `beta = 1.5` the evaluator
yields exactly `0.11`. -/
theorem calculate_capm_concrete_lab1 :
    CapmExplained.calculate_capm 0.02 0.08 1.5 = 0.11 := by
  norm_num [CapmExplained.calculate_capm]

/-- Claim C9: the two `calculate_capm` definitions, in `capm.py` and in
`capm_explained.py`, agree on every input triple. -/
theorem calculate_capm_files_agree (rf rm beta : ℚ) :
    Capm.calculate_capm rf rm beta = CapmExplained.calculate_capm rf rm beta :=
  rfl

/-- Claim C10: the scatter point plotted for the asset lies on the rendered
SML: `returns` is exactly the `sml_line` affine function mapped over the
sampled betas, and the scatter y-value `calculate_capm rf rm beta` equals
`sml_line rf rm beta` at the same beta. -/
theorem scatter_point_on_sml (rf rm beta : ℚ) :
    CapmExplained.returns rf rm
      = CapmExplained.betas.map (CapmExplained.sml_line rf rm) ∧
    CapmExplained.calculate_capm rf rm beta
      = CapmExplained.sml_line rf rm beta :=
  ⟨rfl, rfl⟩
